/-
Verification of the needle-position motor controller
(Raspberry Pi Pico project, files main.py, motor_control.py,
sensor_manager.py, config_manager.py).

Shallow embedding conventions:
 * Python floats are modelled as exact rationals.
 * Millisecond and microsecond tick counters are modelled as integers;
   MicroPython utime.ticks_diff a b is modelled as a - b (no wraparound,
   which is sound for the bounded windows appearing here).
 * Mutable module globals become explicit state records threaded through
   the functions; cooperative-task loops become fuel-indexed recursion,
   with each iteration advancing the clock by the sleep of the loop body.
 * Python int(x) truncates toward zero; modelled by pyInt below.
 * Python round(x, 3) rounds half to even; modelled by round3 below.
-/
import Mathlib

set_option linter.unusedVariables false

/-- Python int() applied to a float: truncation toward zero. -/
def pyInt (q : ℚ) : ℤ := if 0 ≤ q then ⌊q⌋ else ⌈q⌉

/-- Python round(x) to the nearest integer, ties to even (banker rounding). -/
def roundHalfEven (q : ℚ) : ℤ :=
  let f := ⌊q⌋
  if q - f < 1/2 then f
  else if 1/2 < q - f then f + 1
  else if f % 2 = 0 then f else f + 1

/-- Python round(x, 3): round to three decimal places. -/
def round3 (q : ℚ) : ℚ := (roundHalfEven (q * 1000) : ℚ) / 1000

/-- Configuration mapping (config_manager.py DEFAULT_CONFIG keys used by the
control core; WiFi credentials omitted).  stop_position_default is the string
"DOWN" or "UP" in the source; it is modelled by the Bool
stop_position_default_down (true exactly when the value is "DOWN"). -/
structure Config where
  max_rpm_setting : ℚ
  soft_start_time_step_ms : ℕ
  soft_start_ramp_steps : ℚ
  stop_position_default_down : Bool
  calibrated_motor_power_free_running_percent : ℚ
  calibrated_motor_power_load_offset_percent : ℚ
  max_motor_rpm : ℚ
  pid_enabled : Bool
  kp : ℚ
  ki : ℚ
  kd : ℚ
  autotune_target_rpm : ℚ
  autotune_power_high : ℚ
  autotune_power_low : ℚ
  deriving DecidableEq, Repr

/-- DEFAULT_CONFIG from config_manager.py. -/
def defaultConfig : Config where
  max_rpm_setting := 500
  soft_start_time_step_ms := 20
  soft_start_ramp_steps := 50
  stop_position_default_down := true
  calibrated_motor_power_free_running_percent := 80
  calibrated_motor_power_load_offset_percent := 10
  max_motor_rpm := 2000
  pid_enabled := false
  kp := 1/2
  ki := 1/100
  kd := 1/20
  autotune_target_rpm := 300
  autotune_power_high := 70
  autotune_power_low := 30

/- ===== motor_control.py ===== -/

/-- adc_max_value = 65535 (16-bit ADC on the Pico). -/
def adc_max_value : ℤ := 65535

/-- ac_half_cycle_time_us = 10000 (50 Hz mains half cycle). -/
def ac_half_cycle_time_us : ℤ := 10000

/-- min_fire_delay_us = 500 (set_motor_power local constant). -/
def min_fire_delay_us : ℤ := 500

/-- max_effective_delay_us = ac_half_cycle_time_us - 200 (set_motor_power
local constant). -/
def max_effective_delay_us : ℤ := ac_half_cycle_time_us - 200

/-- Result of set_motor_power: the clamped global motor_power_percent, the
stored _target_triac_delay_us, and whether the branch drove the TRIAC gate
pin low immediately (the dead-zone branch does). -/
structure MotorCmd where
  power : ℚ
  delay : ℤ
  gateForcedLow : Bool
  deriving DecidableEq, Repr

/-- set_motor_power (motor_control.py lines 124-162): clamps percent to
[0,100]; at or below 5 percent stores a delay beyond the half cycle and
forces the gate low; otherwise stores the truncated linear interpolation
between min_fire_delay_us (100 percent) and max_effective_delay_us
(0 percent). -/
def set_motor_power (percent : ℚ) : MotorCmd :=
  let p := max 0 (min 100 percent)
  if p ≤ 5 then
    { power := p, delay := ac_half_cycle_time_us + 100, gateForcedLow := true }
  else
    let delay_range : ℚ := (max_effective_delay_us : ℚ) - (min_fire_delay_us : ℚ)
    let calculated_delay : ℚ := (min_fire_delay_us : ℚ) + delay_range * ((100 - p) / 100)
    { power := p, delay := pyInt calculated_delay, gateForcedLow := false }

/-- Firing condition of triac_firing_task (motor_control.py line 207): a gate
pulse is issued for the cycle only when the stored delay is strictly between
0 and the half-cycle time. -/
def triac_fires (delay : ℤ) : Bool := decide (0 < delay) && decide (delay < ac_half_cycle_time_us)

/-- get_target_rpm_from_pedal (motor_control.py lines 169-186). -/
def get_target_rpm_from_pedal (pedal_value max_rpm_setting max_motor_rpm : ℚ) : ℚ :=
  if pedal_value < 1000 then 0
  else
    let normalized := (pedal_value - 1000) / ((adc_max_value : ℚ) - 1000)
    let normalized := max 0 (min 1 normalized)
    let target : ℤ := pyInt (normalized * max_rpm_setting)
    min (target : ℚ) max_motor_rpm

/-- PID controller state (class PID of motor_control.py): gains plus
_prev_error, _integral, _last_time (ms) and _soft_start_current_setpoint. -/
structure PID where
  kp : ℚ
  ki : ℚ
  kd : ℚ
  prev_error : ℚ
  integral : ℚ
  last_time : ℤ
  soft_start_current_setpoint : ℚ
  deriving DecidableEq, Repr

/-- PID.update (motor_control.py lines 44-73), with the current tick count
passed explicitly.  Returns the output together with the successor state;
when dt = 0 it returns _prev_error and leaves the state untouched. -/
def PID.update (s : PID) (now : ℤ) (setpoint current_value : ℚ) : ℚ × PID :=
  let dt : ℚ := ((now - s.last_time : ℤ) : ℚ) / 1000
  if dt = 0 then (s.prev_error, s)
  else
    let error := setpoint - current_value
    let p_term := s.kp * error
    let integral := s.integral + error * dt
    let i_term := s.ki * integral
    let d_term := s.kd * (error - s.prev_error) / dt
    let output := p_term + i_term + d_term
    (max 0 (min 100 output),
     { s with prev_error := error, integral := integral, last_time := now })

/-- PID.reset (motor_control.py lines 75-80). -/
def PID.reset (s : PID) (now : ℤ) : PID :=
  { s with prev_error := 0, integral := 0, last_time := now,
           soft_start_current_setpoint := 0 }

/- ===== sensor_manager.py ===== -/

/-- RPM_POLES = 1 (pulses per revolution). -/
def RPM_POLES : ℤ := 1

/-- Mutable globals of sensor_manager.py used by calculate_rpm. -/
structure RpmState where
  pulse_count : ℕ
  last_calc_time : ℤ
  current_rpm : ℤ
  deriving DecidableEq, Repr

/-- calculate_rpm (sensor_manager.py lines 57-75), with the current
millisecond tick passed explicitly.  Positive elapsed time yields
int(pulses / elapsedMs * 1000 * (60 / RPM_POLES)) and resets the pulse
counter; otherwise the result is 0 and the counter is kept. -/
def calculate_rpm (s : RpmState) (now : ℤ) : ℤ × RpmState :=
  let elapsed := now - s.last_calc_time
  if 0 < elapsed then
    let rpm_val : ℚ := ((s.pulse_count : ℚ) / (elapsed : ℚ)) * 1000 * (60 / (RPM_POLES : ℚ))
    let r := pyInt rpm_val
    (r, { pulse_count := 0, last_calc_time := now, current_rpm := r })
  else
    (0, { s with last_calc_time := now, current_rpm := 0 })

/- ===== main.py: soft start (main_loop, lines 289-301 and 321-331) ===== -/

/-- PID-path soft-start tick (main.py lines 289-301): the ramped setpoint is
raised by max_rpm_setting / soft_start_ramp_steps; if it has reached
target_rpm_setpoint it is clamped to the target and soft_start_active is
cleared.  Returns the new ramped setpoint and the new soft_start_active
flag. -/
def pid_soft_start_tick (cfg : Config) (target_rpm_setpoint s : ℚ) : ℚ × Bool :=
  let rpm_increment_per_step := cfg.max_rpm_setting / cfg.soft_start_ramp_steps
  let s' := s + rpm_increment_per_step
  if target_rpm_setpoint ≤ s' then (target_rpm_setpoint, false) else (s', true)

/-- Open-loop-path soft-start tick (main.py lines 321-331): the ramped power
is raised by current_target_power_percent / soft_start_ramp_steps, clamped to
the target, clearing soft_start_active when the target is reached. -/
def open_loop_soft_start_tick (cfg : Config) (current_target_power_percent p : ℚ) :
    ℚ × Bool :=
  let power_increment_per_step := current_target_power_percent / cfg.soft_start_ramp_steps
  let p' := p + power_increment_per_step
  if current_target_power_percent ≤ p' then (current_target_power_percent, false)
  else (p', true)

/-- Open-loop target power (main.py lines 308-319). -/
def open_loop_target_power (cfg : Config) (pedal_value : ℚ) : ℚ :=
  let max_effective_power_setting :=
    cfg.calibrated_motor_power_free_running_percent +
    cfg.calibrated_motor_power_load_offset_percent
  let scaled_pedal := (pedal_value - 1000) / ((adc_max_value : ℚ) - 1000)
  let scaled_pedal := max 0 (min 1 scaled_pedal)
  let current_target_power_percent := scaled_pedal * max_effective_power_setting
  let current_target_power_percent :=
    min current_target_power_percent max_effective_power_setting
  min current_target_power_percent 100

/- ===== main.py: maximum-RPM calibration (run_max_rpm_calibration) ===== -/

/-- State of run_max_rpm_calibration: clock, recorded start tick, running
maximum, the max_rpm_calibration_active flag, the last commanded power and
the configuration. -/
structure CalState where
  now : ℤ
  start : ℤ
  maxObs : ℤ
  active : Bool
  power : ℚ
  cfg : Config
  deriving DecidableEq, Repr

/-- Sampling loop of run_max_rpm_calibration (main.py line 47): iterates
while ticks_diff(ticks_ms(), start_time) < 0 and the active flag holds;
each iteration samples calculate_rpm (abstracted by the oracle rpm, indexed
by the clock), keeps the maximum, and sleeps 100 ms.  Note the source
compares the elapsed time against 0, not against the declared
calibration_duration_ms = 5000, which is never used. -/
def calib_loop (rpm : ℤ → ℤ) : ℕ → CalState → CalState
  | 0, s => s
  | n + 1, s =>
      if s.now - s.start < 0 ∧ s.active = true then
        let r := rpm s.now
        calib_loop rpm n
          { s with maxObs := if s.maxObs < r then r else s.maxObs, now := s.now + 100 }
      else s

/-- run_max_rpm_calibration (main.py lines 36-64): power to 100, the sampling
loop, power to 0, and, when the flag was not cleared by the user, the write
of the observed maximum into config key max_motor_rpm; finally the active
flag is reset. -/
def run_max_rpm_calibration (cfg : Config) (rpm : ℤ → ℤ) (fuel : ℕ) (t0 : ℤ) :
    CalState :=
  let s0 : CalState :=
    { now := t0, start := t0, maxObs := 0, active := true, power := 100, cfg }
  let s1 := calib_loop rpm fuel s0
  let s2 := { s1 with power := 0 }
  if s2.active = true then
    { s2 with cfg := { s2.cfg with max_motor_rpm := (s2.maxObs : ℚ) }, active := false }
  else
    { s2 with active := false }

/- ===== main.py: needle stop sequence (main_loop, lines 344-371) ===== -/

/-- stop_power = 5 (main.py line 345): the creep power commanded while the
stop sequence waits for the needle position sensor. -/
def stop_power : ℚ := 5

/-- State of the stop-sequence polling loop: clock, deadline
(entry tick + 5000), the motor command currently in force, and the
sensor-manager state threaded through calculate_rpm. -/
structure StopState where
  now : ℤ
  deadline : ℤ
  cmd : MotorCmd
  rpmSt : RpmState
  last_rpm : ℤ
  deriving DecidableEq, Repr

/-- Polling loop of the stop sequence (main.py lines 361-364): while the
target sensor reads false and ticks_diff(ticks_ms(), stop_timeout) < 0,
refresh last_rpm via calculate_rpm and sleep 50 ms. -/
def stop_loop (sensor : ℤ → Bool) : ℕ → StopState → StopState
  | 0, s => s
  | n + 1, s =>
      if sensor s.now = false ∧ s.now - s.deadline < 0 then
        let pr := calculate_rpm s.rpmSt s.now
        stop_loop sensor n
          { s with last_rpm := pr.1, rpmSt := pr.2, now := s.now + 50 }
      else s

/-- Result of the stop sequence: the final state, the command that was in
force during the polling loop (the creep command) and the reported outcome
(true exactly when the sensor asserted, main.py lines 368-371). -/
structure StopResult where
  final : StopState
  creep : MotorCmd
  success : Bool
  deriving DecidableEq, Repr

/-- Needle stop sequence (main.py lines 344-371): commands set_motor_power
stop_power, selects the target sensor from stop_position_default, arms the
5-second timeout, runs the polling loop, then forces power to 0 and reports
whether the sensor asserted. -/
def stop_sequence (cfg : Config) (sensor_down sensor_up : ℤ → Bool) (fuel : ℕ)
    (t0 : ℤ) (rpmSt : RpmState) : StopResult :=
  let creep := set_motor_power stop_power
  let sensor := if cfg.stop_position_default_down = true then sensor_down else sensor_up
  let s0 : StopState :=
    { now := t0, deadline := t0 + 5000, cmd := creep, rpmSt := rpmSt, last_rpm := 0 }
  let s1 := stop_loop sensor fuel s0
  let s2 := { s1 with cmd := set_motor_power 0 }
  { final := s2, creep := s1.cmd, success := sensor s2.now }

/- ===== main.py: PID autotune (autotune_pid, lines 66-221) ===== -/

/-- Stage values kept in the global autotune_stage (main.py line 32:
0 is idle, 1 is the oscillation stage, 2 is complete). -/
def autotune_stage_idle : ℕ := 0

/-- Stage value 1: the active oscillation stage. -/
def autotune_stage_oscillation : ℕ := 1

/-- Stage value 2: autotune complete. -/
def autotune_stage_complete : ℕ := 2

/-- State of autotune_pid: clock, recorded start tick, last RPM sample tick,
running max and min of the sampled RPM, the stage and active flags, the last
commanded power and the configuration. -/
structure ATState where
  now : ℤ
  start : ℤ
  last_sample : ℤ
  maxObs : ℚ
  minObs : ℚ
  stage : ℕ
  active : Bool
  power : ℚ
  cfg : Config
  deriving DecidableEq, Repr

/-- One body of the autotune while-loop (main.py lines 104-213) at RPM
sample r.  When r exceeds 10 and at least 100 ms passed since the previous
accepted sample: toggle power against the 0.9/1.1 band around the target,
update the running max and min, and after 10 s of oscillation attempt test
whether max - min exceeds 0.1 of the target; if so derive the
Ziegler-Nichols gains (Pu fixed at 2.0 s, Ku = delta power / delta rpm when
the swing is positive, else 0.5), write them rounded to three decimals into
the configuration with pid_enabled set, mark stage 2, clear the active flag,
command power 0 and break (modelled by the cleared active flag, which exits
the loop).  Every non-breaking path sleeps 50 ms. -/
def autotune_iter (target hi lo : ℚ) (r : ℚ) (s : ATState) : ATState :=
  if 10 < r ∧ 100 ≤ s.now - s.last_sample then
    let power := if r < target * (9/10) then hi
                 else if target * (11/10) < r then lo else s.power
    let maxObs := max s.maxObs r
    let minObs := min s.minObs r
    if 10000 < s.now - s.start then
      if target * (1/10) < maxObs - minObs then
        let Pu : ℚ := 2
        let delta_power := hi - lo
        let delta_rpm_oscillation := maxObs - minObs
        let Ku : ℚ := if 0 < delta_rpm_oscillation
                      then delta_power / delta_rpm_oscillation else 1/2
        let kp_zn := (6/10) * Ku
        let ti_zn := Pu / 2
        let td_zn := Pu / 8
        let ki_zn := if 0 < ti_zn then kp_zn / ti_zn else 0
        let kd_zn := kp_zn * td_zn
        let cfg2 : Config :=
          { s.cfg with kp := round3 kp_zn, ki := round3 ki_zn,
                       kd := round3 kd_zn, pid_enabled := true }
        { s with last_sample := s.now, power := 0, maxObs := maxObs, minObs := minObs,
                 cfg := cfg2,
                 stage := autotune_stage_complete, active := false }
      else
        { s with last_sample := s.now, power := power, maxObs := maxObs,
                 minObs := minObs, now := s.now + 50 }
    else
      { s with last_sample := s.now, power := power, maxObs := maxObs,
               minObs := minObs, now := s.now + 50 }
  else
    { s with now := s.now + 50 }

/-- The autotune while-loop (main.py line 104): iterate the body while
autotune_active holds and ticks_diff(ticks_ms(), tuning_timeout) < 0, where
tuning_timeout is start + 45000.  The break of the success branch is
modelled by the cleared active flag. -/
def autotune_loop (target hi lo : ℚ) (rpm : ℤ → ℚ) : ℕ → ATState → ATState
  | 0, s => s
  | n + 1, s =>
      if s.active = true ∧ s.now - (s.start + 45000) < 0 then
        autotune_loop target hi lo rpm n (autotune_iter target hi lo (rpm s.now) s)
      else s

/-- autotune_pid (main.py lines 66-221): reads the tuning parameters from
the configuration, commands the high power, waits 2 s, runs the oscillation
loop, and in the epilogue resets the stage to 0 when the loop ended with
the active flag still set (the timeout case), then clears the flag and
forces power to 0. -/
def autotune_pid (cfg : Config) (rpm : ℤ → ℚ) (fuel : ℕ) (t0 : ℤ) : ATState :=
  let target := cfg.autotune_target_rpm
  let hi := cfg.autotune_power_high
  let lo := cfg.autotune_power_low
  let start := t0 + 2000
  let s0 : ATState :=
    { now := start, start := start, last_sample := start,
      maxObs := 0, minObs := 9999, stage := autotune_stage_oscillation,
      active := true, power := hi, cfg := cfg }
  let s1 := autotune_loop target hi lo rpm fuel s0
  let s2 := if s1.active = true then { s1 with stage := autotune_stage_idle } else s1
  { s2 with active := false, power := 0 }

/- ===================== Helper lemmas ===================== -/

theorem pyInt_of_nonneg {q : ℚ} (h : 0 ≤ q) : pyInt q = ⌊q⌋ := if_pos h

theorem pyInt_mono {a b : ℚ} (ha : 0 ≤ a) (hab : a ≤ b) : pyInt a ≤ pyInt b := by
  rw [pyInt_of_nonneg ha, pyInt_of_nonneg (ha.trans hab)]
  exact Int.floor_le_floor hab

theorem le_pyInt {n : ℤ} {q : ℚ} (h : (n : ℚ) ≤ q) (h0 : 0 ≤ q) : n ≤ pyInt q := by
  rw [pyInt_of_nonneg h0]; exact Int.le_floor.mpr h

theorem pyInt_le {n : ℤ} {q : ℚ} (h : q ≤ (n : ℚ)) (h0 : 0 ≤ q) : pyInt q ≤ n := by
  rw [pyInt_of_nonneg h0]
  have h1 : (⌊q⌋ : ℚ) ≤ (n : ℚ) := (Int.floor_le q).trans h
  exact_mod_cast h1

theorem pyInt_cast_le {q : ℚ} (h0 : 0 ≤ q) : (pyInt q : ℚ) ≤ q := by
  rw [pyInt_of_nonneg h0]; exact Int.floor_le q

theorem pyInt_cast_nonneg {q : ℚ} (h0 : 0 ≤ q) : (0 : ℚ) ≤ (pyInt q : ℚ) := by
  have : (0 : ℤ) ≤ pyInt q := le_pyInt (by exact_mod_cast h0) h0
  exact_mod_cast this

example : (calculate_rpm ⟨30, 0, 0⟩ 1000).1 = 1800 := by
  norm_num [calculate_rpm, pyInt, RPM_POLES]
example : set_motor_power 5 = ⟨5, 10100, true⟩ := rfl
example : (set_motor_power 100).delay = 500 := by
  norm_num [set_motor_power, pyInt, min_fire_delay_us, max_effective_delay_us,
    ac_half_cycle_time_us]
example : (set_motor_power 50).delay = 5150 := by
  norm_num [set_motor_power, pyInt, min_fire_delay_us, max_effective_delay_us,
    ac_half_cycle_time_us]
example : get_target_rpm_from_pedal 33268 500 2000 = 250 := by
  norm_num [get_target_rpm_from_pedal, pyInt, adc_max_value]

/- ===================== C10: pedal-to-target-RPM mapping ===================== -/

theorem gtr_dead {p mrs mmr : ℚ} (h : p < 1000) :
    get_target_rpm_from_pedal p mrs mmr = 0 := by
  unfold get_target_rpm_from_pedal; rw [if_pos h]

theorem gtr_live {p mrs mmr : ℚ} (h : ¬ p < 1000) :
    get_target_rpm_from_pedal p mrs mmr =
      min ((pyInt ((max 0 (min 1 ((p - 1000) / ((adc_max_value : ℚ) - 1000)))) * mrs) : ℚ))
        mmr := by
  unfold get_target_rpm_from_pedal; rw [if_neg h]

/-- C10: get_target_rpm_from_pedal returns 0 below the dead-zone threshold
1000; for non-negative max_rpm_setting and max_motor_rpm the result always
lies in the interval from 0 to min max_rpm_setting max_motor_rpm; and the
result is monotonically non-decreasing in the pedal input. -/
theorem get_target_rpm_from_pedal_spec :
    (∀ p mrs mmr : ℚ, p < 1000 → get_target_rpm_from_pedal p mrs mmr = 0) ∧
    (∀ p mrs mmr : ℚ, 0 ≤ mrs → 0 ≤ mmr →
      0 ≤ get_target_rpm_from_pedal p mrs mmr ∧
      get_target_rpm_from_pedal p mrs mmr ≤ min mrs mmr) ∧
    (∀ p q mrs mmr : ℚ, 0 ≤ mrs → 0 ≤ mmr → p ≤ q →
      get_target_rpm_from_pedal p mrs mmr ≤ get_target_rpm_from_pedal q mrs mmr) := by
  have hrange : ∀ p mrs mmr : ℚ, 0 ≤ mrs → 0 ≤ mmr →
      0 ≤ get_target_rpm_from_pedal p mrs mmr ∧
      get_target_rpm_from_pedal p mrs mmr ≤ min mrs mmr := by
    intro p mrs mmr hmrs hmmr
    by_cases hp : p < 1000
    · rw [gtr_dead hp]
      exact ⟨le_rfl, le_min hmrs hmmr⟩
    · rw [gtr_live hp]
      set n := max 0 (min 1 ((p - 1000) / ((adc_max_value : ℚ) - 1000))) with hn
      have hn0 : 0 ≤ n := le_max_left _ _
      have hn1 : n ≤ 1 := max_le (by norm_num) (min_le_left _ _)
      have hnm0 : 0 ≤ n * mrs := mul_nonneg hn0 hmrs
      have hcast0 : (0 : ℚ) ≤ (pyInt (n * mrs) : ℚ) := pyInt_cast_nonneg hnm0
      have hnm_le : n * mrs ≤ mrs := by
        have := mul_le_mul_of_nonneg_right hn1 hmrs
        simpa using this
      have hcast_le : (pyInt (n * mrs) : ℚ) ≤ mrs := (pyInt_cast_le hnm0).trans hnm_le
      exact ⟨le_min hcast0 hmmr,
             le_min ((min_le_left _ _).trans hcast_le) (min_le_right _ _)⟩
  refine ⟨fun p mrs mmr hp => gtr_dead hp, hrange, ?_⟩
  intro p q mrs mmr hmrs hmmr hpq
  by_cases hq : q < 1000
  · have hp : p < 1000 := lt_of_le_of_lt hpq hq
    rw [gtr_dead hp, gtr_dead hq]
  · by_cases hp : p < 1000
    · rw [gtr_dead hp]
      exact (hrange q mrs mmr hmrs hmmr).1
    · rw [gtr_live hp, gtr_live hq]
      have hden : (0 : ℚ) < (adc_max_value : ℚ) - 1000 := by norm_num [adc_max_value]
      have hdiv : (p - 1000) / ((adc_max_value : ℚ) - 1000) ≤
          (q - 1000) / ((adc_max_value : ℚ) - 1000) :=
        (div_le_div_iff_of_pos_right hden).mpr (by linarith)
      have hnn : max 0 (min 1 ((p - 1000) / ((adc_max_value : ℚ) - 1000))) ≤
          max 0 (min 1 ((q - 1000) / ((adc_max_value : ℚ) - 1000))) :=
        max_le_max le_rfl (min_le_min le_rfl hdiv)
      have hp0 : 0 ≤ max 0 (min 1 ((p - 1000) / ((adc_max_value : ℚ) - 1000))) :=
        le_max_left _ _
      have hpy : pyInt (max 0 (min 1 ((p - 1000) / ((adc_max_value : ℚ) - 1000))) * mrs) ≤
          pyInt (max 0 (min 1 ((q - 1000) / ((adc_max_value : ℚ) - 1000))) * mrs) :=
        pyInt_mono (mul_nonneg hp0 hmrs) (mul_le_mul_of_nonneg_right hnn hmrs)
      exact min_le_min (by exact_mod_cast hpy) le_rfl

/-- Witness for C10 at concrete inputs: a pedal value below the threshold
maps to 0; pedal 33268 with settings 500 and 2000 stays within the range
bound; and raising the pedal to 40000 does not decrease the target. -/
theorem get_target_rpm_from_pedal_spec_witness :
    get_target_rpm_from_pedal 999 500 2000 = 0 ∧
    0 ≤ get_target_rpm_from_pedal 33268 500 2000 ∧
    get_target_rpm_from_pedal 33268 500 2000 ≤ min 500 2000 ∧
    get_target_rpm_from_pedal 33268 500 2000 ≤ get_target_rpm_from_pedal 40000 500 2000 := by
  have h1 := get_target_rpm_from_pedal_spec.1 999 500 2000 (by norm_num)
  have h2 := get_target_rpm_from_pedal_spec.2.1 33268 500 2000 (by norm_num) (by norm_num)
  have h3 := get_target_rpm_from_pedal_spec.2.2 33268 40000 500 2000 (by norm_num)
    (by norm_num) (by norm_num)
  exact ⟨h1, h2.1, h2.2, h3⟩

/- ===================== C6: percent-to-firing-delay mapping ===================== -/

theorem smp_power_def (percent : ℚ) :
    (set_motor_power percent).power = max 0 (min 100 percent) := by
  unfold set_motor_power; dsimp only; split <;> rfl

theorem smp_dead {percent : ℚ} (h : max 0 (min 100 percent) ≤ 5) :
    set_motor_power percent =
      ⟨max 0 (min 100 percent), ac_half_cycle_time_us + 100, true⟩ := by
  unfold set_motor_power; dsimp only; rw [if_pos h]

theorem smp_live {percent : ℚ} (h : ¬ max 0 (min 100 percent) ≤ 5) :
    set_motor_power percent =
      ⟨max 0 (min 100 percent),
       pyInt (500 + 9300 * ((100 - max 0 (min 100 percent)) / 100)), false⟩ := by
  unfold set_motor_power; dsimp only; rw [if_neg h]
  norm_num [min_fire_delay_us, max_effective_delay_us, ac_half_cycle_time_us]

/-- The stored firing delay is antitone in the requested percentage. -/
theorem smp_delay_antitone {p q : ℚ} (h : p ≤ q) :
    (set_motor_power q).delay ≤ (set_motor_power p).delay := by
  have hmono : max 0 (min 100 p) ≤ max 0 (min 100 q) :=
    max_le_max le_rfl (min_le_min le_rfl h)
  have hp0 : 0 ≤ max 0 (min 100 p) := le_max_left _ _
  have hq0 : 0 ≤ max 0 (min 100 q) := le_max_left _ _
  have hp100 : max 0 (min 100 p) ≤ 100 := max_le (by norm_num) (min_le_left _ _)
  have hq100 : max 0 (min 100 q) ≤ 100 := max_le (by norm_num) (min_le_left _ _)
  by_cases h5q : max 0 (min 100 q) ≤ 5
  · have h5p : max 0 (min 100 p) ≤ 5 := hmono.trans h5q
    rw [smp_dead h5p, smp_dead h5q]
  · by_cases h5p : max 0 (min 100 p) ≤ 5
    · rw [smp_dead h5p, smp_live h5q]
      dsimp only
      have hq0d : (0:ℚ) ≤ (100 - max 0 (min 100 q)) / 100 :=
        div_nonneg (by linarith) (by norm_num)
      have hq30 : (0:ℚ) ≤ 9300 * ((100 - max 0 (min 100 q)) / 100) :=
        mul_nonneg (by norm_num) hq0d
      have h1 : (100 - max 0 (min 100 q)) / 100 ≤ 1 := by
        rw [div_le_one (by norm_num : (0:ℚ) < 100)]; linarith
      have h93 : 9300 * ((100 - max 0 (min 100 q)) / 100) ≤ 9300 * 1 :=
        mul_le_mul_of_nonneg_left h1 (by norm_num)
      have hub : pyInt (500 + 9300 * ((100 - max 0 (min 100 q)) / 100)) ≤ (9800 : ℤ) := by
        apply pyInt_le
        · push_cast; linarith
        · linarith
      have h2 : (9800 : ℤ) ≤ ac_half_cycle_time_us + 100 := by
        norm_num [ac_half_cycle_time_us]
      omega
    · rw [smp_live h5p, smp_live h5q]
      dsimp only
      have hq0d : (0:ℚ) ≤ (100 - max 0 (min 100 q)) / 100 :=
        div_nonneg (by linarith) (by norm_num)
      have hq30 : (0:ℚ) ≤ 9300 * ((100 - max 0 (min 100 q)) / 100) :=
        mul_nonneg (by norm_num) hq0d
      apply pyInt_mono
      · linarith
      · have hd : (100 - max 0 (min 100 q)) / 100 ≤ (100 - max 0 (min 100 p)) / 100 :=
          (div_le_div_iff_of_pos_right (by norm_num : (0:ℚ) < 100)).mpr (by linarith)
        have h93 : 9300 * ((100 - max 0 (min 100 q)) / 100) ≤
            9300 * ((100 - max 0 (min 100 p)) / 100) :=
          mul_le_mul_of_nonneg_left hd (by norm_num)
        linarith

/-- C6: set_motor_power clamps its input to the percent range 0 to 100; in
the dead zone (clamped percent at most 5) it stores the off sentinel beyond
the half cycle and forces the TRIAC gate low; above the dead zone the
stored delay is the truncated linear map
min_fire_delay_us + (max_effective_delay_us - min_fire_delay_us) *
(100 - percent) / 100, lying between min_fire_delay_us = 500 and
max_effective_delay_us = half cycle - 200; and the delay is monotonically
non-increasing in the requested percentage. -/
theorem set_motor_power_delay_spec :
    ∀ percent : ℚ,
      (set_motor_power percent).power = max 0 (min 100 percent) ∧
      ((set_motor_power percent).power ≤ 5 →
        (set_motor_power percent).delay = ac_half_cycle_time_us + 100 ∧
        ac_half_cycle_time_us < (set_motor_power percent).delay ∧
        (set_motor_power percent).gateForcedLow = true) ∧
      (5 < (set_motor_power percent).power →
        min_fire_delay_us ≤ (set_motor_power percent).delay ∧
        (set_motor_power percent).delay ≤ max_effective_delay_us ∧
        (set_motor_power percent).delay =
          pyInt ((min_fire_delay_us : ℚ) +
            (((max_effective_delay_us : ℚ) - (min_fire_delay_us : ℚ)) *
             ((100 - (set_motor_power percent).power) / 100))) ∧
        (set_motor_power percent).gateForcedLow = false) ∧
      (∀ q : ℚ, percent ≤ q → (set_motor_power q).delay ≤ (set_motor_power percent).delay) := by
  intro percent
  have hpw := smp_power_def percent
  have hc0 : 0 ≤ max 0 (min 100 percent) := le_max_left _ _
  have hc100 : max 0 (min 100 percent) ≤ 100 := max_le (by norm_num) (min_le_left _ _)
  refine ⟨hpw, ?_, ?_, fun q hq => smp_delay_antitone hq⟩
  · intro h5
    rw [hpw] at h5
    rw [smp_dead h5]
    exact ⟨rfl, by norm_num [ac_half_cycle_time_us], rfl⟩
  · intro h5
    rw [hpw] at h5
    have h5' : ¬ max 0 (min 100 percent) ≤ 5 := not_le.mpr h5
    rw [smp_live h5']
    dsimp only
    have hq0 : (0:ℚ) ≤ (100 - max 0 (min 100 percent)) / 100 :=
      div_nonneg (by linarith) (by norm_num)
    have hq1 : (100 - max 0 (min 100 percent)) / 100 ≤ 1 := by
      rw [div_le_one (by norm_num : (0:ℚ) < 100)]; linarith
    have hf500 : (500:ℚ) ≤ 500 + 9300 * ((100 - max 0 (min 100 percent)) / 100) := by
      nlinarith
    refine ⟨?_, ?_, ?_, rfl⟩
    · apply le_pyInt
      · push_cast [min_fire_delay_us]; linarith
      · linarith
    · apply pyInt_le
      · push_cast [max_effective_delay_us, ac_half_cycle_time_us]; nlinarith
      · linarith
    · norm_num [min_fire_delay_us, max_effective_delay_us, ac_half_cycle_time_us]

/-- Witness for C6 at concrete inputs: percent 50 is above the dead zone
with delay 5150 inside the valid band, and percent 60 does not increase the
delay; percent 3 takes the off sentinel. -/
theorem set_motor_power_delay_spec_witness :
    (set_motor_power 50).power = max 0 (min 100 50) ∧
    min_fire_delay_us ≤ (set_motor_power 50).delay ∧
    (set_motor_power 50).delay ≤ max_effective_delay_us ∧
    (set_motor_power 60).delay ≤ (set_motor_power 50).delay ∧
    (set_motor_power 3).delay = ac_half_cycle_time_us + 100 := by
  have h50 := set_motor_power_delay_spec 50
  have h3 := set_motor_power_delay_spec 3
  have h5lt : (5:ℚ) < (set_motor_power 50).power := by
    rw [h50.1]; norm_num
  have h3le : (set_motor_power 3).power ≤ 5 := by
    rw [h3.1]; norm_num
  exact ⟨h50.1, (h50.2.2.1 h5lt).1, (h50.2.2.1 h5lt).2.1,
         h50.2.2.2 60 (by norm_num), (h3.2.1 h3le).1⟩

/- ===================== C8: PID update with zero elapsed time ===================== -/

/-- C8: When PID update is called with zero elapsed time since the previous
call, it returns the stored previous error without dividing by zero and
leaves the whole PID state unmodified, so calling update twice with
identical arguments and dt = 0 returns the same value both times. -/
theorem pid_update_zero_dt (s : PID) (now : ℤ) (setpoint current_value : ℚ)
    (h : now - s.last_time = 0) :
    PID.update s now setpoint current_value = (s.prev_error, s) ∧
    PID.update (PID.update s now setpoint current_value).2 now setpoint current_value =
      PID.update s now setpoint current_value := by
  have h1 : PID.update s now setpoint current_value = (s.prev_error, s) := by
    unfold PID.update
    simp only [h]
    norm_num
  exact ⟨h1, by rw [h1]; exact h1⟩

/-- Witness for C8 at a concrete state: dt = 0, the stored previous error 7
is returned and the state survives unchanged. -/
theorem pid_update_zero_dt_witness :
    PID.update ⟨1, 0, 0, 7, 3, 42, 0⟩ 42 100 80 = (7, ⟨1, 0, 0, 7, 3, 42, 0⟩) ∧
    PID.update (PID.update ⟨1, 0, 0, 7, 3, 42, 0⟩ 42 100 80).2 42 100 80 =
      PID.update ⟨1, 0, 0, 7, 3, 42, 0⟩ 42 100 80 := by
  have h := pid_update_zero_dt ⟨1, 0, 0, 7, 3, 42, 0⟩ 42 100 80 (by norm_num)
  exact ⟨h.1, h.2⟩

/- ===================== C9: calculate_rpm ===================== -/

/-- C9: calculate_rpm with one pulse per revolution returns 1800 RPM for 30
pulses over a 1000 ms window, and returns 0 without raising when the elapsed
time since its previous invocation is zero. -/
theorem calculate_rpm_spec :
    (∀ (s : RpmState) (now : ℤ), s.pulse_count = 30 → now - s.last_calc_time = 1000 →
      (calculate_rpm s now).1 = 1800 ∧ (calculate_rpm s now).2.pulse_count = 0) ∧
    (∀ (s : RpmState) (now : ℤ), now - s.last_calc_time = 0 →
      (calculate_rpm s now).1 = 0) := by
  constructor
  · intro s now hp he
    unfold calculate_rpm
    simp only [he, hp]
    norm_num [pyInt, RPM_POLES]
  · intro s now he
    unfold calculate_rpm
    simp only [he]
    norm_num

/-- Witness for C9: 30 pulses over exactly 1000 ms yield 1800, and a
zero-length window yields 0. -/
theorem calculate_rpm_spec_witness :
    (calculate_rpm ⟨30, 0, 0⟩ 1000).1 = 1800 ∧ (calculate_rpm ⟨30, 500, 9⟩ 500).1 = 0 :=
  ⟨(calculate_rpm_spec.1 ⟨30, 0, 0⟩ 1000 rfl (by norm_num)).1,
   calculate_rpm_spec.2 ⟨30, 500, 9⟩ 500 (by norm_num)⟩

/- ===================== C2: soft-start ramp ===================== -/

/-- C2 counterexample: the claim says the PID-mode ramp increment is
target / rampSteps (target RPM over ramp steps).  With the default
configuration (max_rpm_setting 500, 50 ramp steps) and a pedal value whose
target RPM is 250, one PID soft-start tick from 0 raises the setpoint by
500 / 50 = 10, which differs from 250 / 50 = 5: the code uses
max_rpm_setting / soft_start_ramp_steps, not target / rampSteps. -/
theorem soft_start_increment_counterexample :
    get_target_rpm_from_pedal 33268 500 2000 = 250 ∧
    defaultConfig.max_rpm_setting = 500 ∧
    defaultConfig.soft_start_ramp_steps = 50 ∧
    (pid_soft_start_tick defaultConfig 250 0).1 = 0 + 500 / 50 ∧
    ((0 : ℚ) + 500 / 50) ≠ 250 / 50 := by
  refine ⟨?_, rfl, rfl, ?_, by norm_num⟩
  · norm_num [get_target_rpm_from_pedal, pyInt, adc_max_value]
  · norm_num [pid_soft_start_tick, defaultConfig]

/-- C2 amended: each PID-mode soft-start tick increments the ramped setpoint
by max_rpm_setting / soft_start_ramp_steps (not by target / rampSteps) and
each open-loop tick increments the ramped power by
target / soft_start_ramp_steps; in both modes the post-tick value never
exceeds the target, and the soft-start flag is cleared exactly in the tick
in which the value reaches the target (where it is clamped to the target). -/
theorem soft_start_tick_spec :
    ∀ (cfg : Config) (target s : ℚ),
      pid_soft_start_tick cfg target s =
        (if target ≤ s + cfg.max_rpm_setting / cfg.soft_start_ramp_steps then (target, false)
         else (s + cfg.max_rpm_setting / cfg.soft_start_ramp_steps, true)) ∧
      open_loop_soft_start_tick cfg target s =
        (if target ≤ s + target / cfg.soft_start_ramp_steps then (target, false)
         else (s + target / cfg.soft_start_ramp_steps, true)) ∧
      (pid_soft_start_tick cfg target s).1 ≤ target ∧
      (open_loop_soft_start_tick cfg target s).1 ≤ target ∧
      ((pid_soft_start_tick cfg target s).2 = false ↔
        (pid_soft_start_tick cfg target s).1 = target) ∧
      ((open_loop_soft_start_tick cfg target s).2 = false ↔
        (open_loop_soft_start_tick cfg target s).1 = target) := by
  intro cfg target s
  refine ⟨rfl, rfl, ?_, ?_, ?_, ?_⟩
  · unfold pid_soft_start_tick
    dsimp only
    split
    · exact le_rfl
    · next h => exact (not_le.mp h).le
  · unfold open_loop_soft_start_tick
    dsimp only
    split
    · exact le_rfl
    · next h => exact (not_le.mp h).le
  · unfold pid_soft_start_tick
    dsimp only
    split
    · simp
    · next h => simp [ne_of_lt (not_le.mp h)]
  · unfold open_loop_soft_start_tick
    dsimp only
    split
    · simp
    · next h => simp [ne_of_lt (not_le.mp h)]

/- ===================== C4: creep power lies in the dead zone ===================== -/

/-- The stop-sequence polling loop never changes the motor command that is
in force when it is entered. -/
theorem stop_loop_cmd (sensor : ℤ → Bool) :
    ∀ (n : ℕ) (s : StopState), (stop_loop sensor n s).cmd = s.cmd := by
  intro n
  induction n with
  | zero => intro s; rfl
  | succ n ih =>
      intro s
      unfold stop_loop
      split
      · exact ih _
      · rfl

/-- C4: the stop sequence commands the constant creep power 5, which
set_motor_power treats as inside the percent ≤ 5 dead zone: it stores the
off sentinel beyond the half cycle and drives the TRIAC gate low, so the
firing task never issues a gate pulse during the stop sequence (nor after
the final set_motor_power 0) and the motor coasts with zero delivered
power. -/
theorem stop_sequence_creep_no_fire :
    stop_power = 5 ∧
    set_motor_power stop_power =
      { power := 5, delay := ac_half_cycle_time_us + 100, gateForcedLow := true } ∧
    ac_half_cycle_time_us < (set_motor_power stop_power).delay ∧
    triac_fires (set_motor_power stop_power).delay = false ∧
    (∀ (cfg : Config) (sd su : ℤ → Bool) (fuel : ℕ) (t0 : ℤ) (rst : RpmState),
        (stop_sequence cfg sd su fuel t0 rst).creep = set_motor_power stop_power) ∧
    triac_fires (set_motor_power 0).delay = false := by
  refine ⟨rfl, rfl, by norm_num [set_motor_power, stop_power, ac_half_cycle_time_us],
         rfl, ?_, rfl⟩
  intro cfg sd su fuel t0 rst
  unfold stop_sequence
  exact stop_loop_cmd _ fuel _

/- ===================== C3 and C7: autotune ===================== -/

theorem autotune_loop_succ (target hi lo : ℚ) (rpm : ℤ → ℚ) (n : ℕ) (s : ATState) :
    autotune_loop target hi lo rpm (n + 1) s =
      if s.active = true ∧ s.now - (s.start + 45000) < 0 then
        autotune_loop target hi lo rpm n (autotune_iter target hi lo (rpm s.now) s)
      else s := rfl

/-- Once the active flag is cleared (the break of the success branch, or a
cancellation), the autotune loop is a fixpoint for any remaining fuel. -/
theorem autotune_loop_inactive (target hi lo : ℚ) (rpm : ℤ → ℚ) :
    ∀ (n : ℕ) (s : ATState), s.active = false → autotune_loop target hi lo rpm n s = s := by
  intro n s hs
  cases n with
  | zero => rfl
  | succ m =>
      rw [autotune_loop_succ, if_neg]
      intro hc
      rw [hs] at hc
      exact Bool.false_ne_true hc.1

/-- One autotune iteration under a bounded RPM trace: when every qualifying
sample lies in the band from A to B and the band is narrower than a tenth
of the target, the success branch cannot fire, so the configuration, stage
and active flag survive, the clock advances by the 50 ms sleep, and the
running max and min stay inside the band. -/
theorem autotune_iter_no_osc (target hi lo A B r : ℚ) (s : ATState)
    (hband : B - A ≤ target * (1/10))
    (hr : 10 < r → A ≤ r ∧ r ≤ B)
    (hmax : s.maxObs ≤ B) (hmin : A ≤ s.minObs) :
    (autotune_iter target hi lo r s).cfg = s.cfg ∧
    (autotune_iter target hi lo r s).stage = s.stage ∧
    (autotune_iter target hi lo r s).active = s.active ∧
    (autotune_iter target hi lo r s).start = s.start ∧
    (autotune_iter target hi lo r s).now = s.now + 50 ∧
    (autotune_iter target hi lo r s).maxObs ≤ B ∧
    A ≤ (autotune_iter target hi lo r s).minObs := by
  have hswing : 10 < r → max s.maxObs r - min s.minObs r ≤ target * (1/10) := by
    intro hq
    obtain ⟨hA, hB⟩ := hr hq
    have h1 : max s.maxObs r ≤ B := max_le hmax hB
    have h2 : A ≤ min s.minObs r := le_min hmin hA
    linarith
  by_cases hq : 10 < r ∧ 100 ≤ s.now - s.last_sample
  · by_cases ht : 10000 < s.now - s.start
    · have ho : ¬ (target * (1/10) < max s.maxObs r - min s.minObs r) :=
        not_lt.mpr (hswing hq.1)
      simp only [autotune_iter]
      rw [if_pos hq, if_pos ht, if_neg ho]
      exact ⟨rfl, rfl, rfl, rfl, rfl, max_le hmax (hr hq.1).2, le_min hmin (hr hq.1).1⟩
    · simp only [autotune_iter]
      rw [if_pos hq, if_neg ht]
      exact ⟨rfl, rfl, rfl, rfl, rfl, max_le hmax (hr hq.1).2, le_min hmin (hr hq.1).1⟩
  · simp only [autotune_iter]
    rw [if_neg hq]
    exact ⟨rfl, rfl, rfl, rfl, rfl, hmax, hmin⟩

/-- The autotune loop under a bounded RPM trace: with 50 k milliseconds
left to the 45-second deadline and the running extrema inside the band,
k iterations run to the deadline without the success branch ever firing:
the configuration and stage survive, the active flag stays set, and the
loop exits exactly at start + 45000. -/
theorem autotune_loop_no_osc (target hi lo A B : ℚ) (rpm : ℤ → ℚ)
    (hband : B - A ≤ target * (1/10))
    (htr : ∀ t, 10 < rpm t → A ≤ rpm t ∧ rpm t ≤ B) :
    ∀ (k : ℕ) (s : ATState), s.active = true → s.maxObs ≤ B → A ≤ s.minObs →
      s.start + 45000 = s.now + 50 * (k : ℤ) →
      (autotune_loop target hi lo rpm (k + 1) s).cfg = s.cfg ∧
      (autotune_loop target hi lo rpm (k + 1) s).stage = s.stage ∧
      (autotune_loop target hi lo rpm (k + 1) s).active = true ∧
      (autotune_loop target hi lo rpm (k + 1) s).now = s.start + 45000 ∧
      (autotune_loop target hi lo rpm (k + 1) s).start = s.start := by
  intro k
  induction k with
  | zero =>
      intro s hact hmax hmin htime
      norm_num at htime
      have hc : ¬ (s.active = true ∧ s.now - (s.start + 45000) < 0) := by
        intro hc
        omega
      rw [autotune_loop_succ, if_neg hc]
      exact ⟨rfl, rfl, hact, by omega, rfl⟩
  | succ k ih =>
      intro s hact hmax hmin htime
      push_cast at htime
      have hc : s.active = true ∧ s.now - (s.start + 45000) < 0 := ⟨hact, by omega⟩
      rw [autotune_loop_succ, if_pos hc]
      obtain ⟨i1, i2, i3, i4, i5, i6, i7⟩ :=
        autotune_iter_no_osc target hi lo A B (rpm s.now) s hband (htr s.now) hmax hmin
      have hact' : (autotune_iter target hi lo (rpm s.now) s).active = true := by
        rw [i3]; exact hact
      have htime' : (autotune_iter target hi lo (rpm s.now) s).start + 45000 =
          (autotune_iter target hi lo (rpm s.now) s).now + 50 * (k : ℤ) := by
        rw [i4, i5]
        omega
      obtain ⟨l1, l2, l3, l4, l5⟩ :=
        ih (autotune_iter target hi lo (rpm s.now) s) hact' i6 i7 htime'
      exact ⟨l1.trans i1, l2.trans i2, l3, by rw [l4, i4], l5.trans i4⟩

/-- With fuel 901 (enough for the 900 iterations of 50 ms that span the
45-second window) and an RPM trace whose qualifying samples stay inside a
band narrower than a tenth of the tuning target, autotune runs to its
timeout: the configuration is untouched, the reported stage is reset to
the idle value, the active flag is cleared, power is forced to 0 and the
clock stands at the 45-second mark after the initial 2-second spin-up. -/
theorem autotune_no_osc (cfg : Config) (rpm : ℤ → ℚ) (t0 : ℤ) (A B : ℚ)
    (h0A : 0 ≤ A) (hA : A ≤ 9999) (hAB : A ≤ B)
    (hband : B - A ≤ cfg.autotune_target_rpm * (1/10))
    (htr : ∀ t, 10 < rpm t → A ≤ rpm t ∧ rpm t ≤ B) :
    (autotune_pid cfg rpm 901 t0).cfg = cfg ∧
    (autotune_pid cfg rpm 901 t0).stage = autotune_stage_idle ∧
    (autotune_pid cfg rpm 901 t0).active = false ∧
    (autotune_pid cfg rpm 901 t0).power = 0 ∧
    (autotune_pid cfg rpm 901 t0).now = t0 + 2000 + 45000 := by
  obtain ⟨l1, l2, l3, l4, l5⟩ :=
    autotune_loop_no_osc cfg.autotune_target_rpm cfg.autotune_power_high
      cfg.autotune_power_low A B rpm hband htr 900
      { now := t0 + 2000, start := t0 + 2000, last_sample := t0 + 2000,
        maxObs := 0, minObs := 9999, stage := autotune_stage_oscillation,
        active := true, power := cfg.autotune_power_high, cfg := cfg }
      rfl (h0A.trans hAB) hA (by ring)
  rw [show (900 : ℕ) + 1 = 901 from rfl] at l1 l2 l3 l4 l5
  simp only [autotune_pid]
  rw [if_pos l3]
  refine ⟨l1, rfl, trivial, trivial, ?_⟩
  dsimp only
  rw [l4]

/-- C3 counterexample: the claim says a timed-out autotune terminates with
a reported status value TimedOut.  The status surface is autotune_stage
with values 0 (idle), 1 (oscillation) and 2 (complete); running autotune
to its 45-second timeout on a trace with no oscillation (RPM constantly 0)
leaves the reported stage equal to the idle value 0 — indistinguishable
from never having run — and not equal to any dedicated timed-out value
distinct from idle and complete. -/
theorem autotune_timeout_reports_idle_stage :
    (autotune_pid defaultConfig (fun _ => 0) 901 0).stage = autotune_stage_idle ∧
    autotune_stage_idle = 0 ∧
    autotune_stage_idle ≠ autotune_stage_complete ∧
    (autotune_pid defaultConfig (fun _ => 0) 901 0).cfg = defaultConfig := by
  have h := autotune_no_osc defaultConfig (fun _ => 0) 0 10 10 (by norm_num)
    (by norm_num) (by norm_num) (by norm_num [defaultConfig])
    (fun t ht => absurd ht (by norm_num))
  exact ⟨h.2.1, rfl, by norm_num [autotune_stage_idle, autotune_stage_complete], h.1⟩

/-- C3 amended: if no qualifying RPM swing wider than a tenth of the target
ever appears, the autotune loop runs to its fixed 45-second timeout and
terminates (fuel 901 covers the whole window), the configuration — in
particular kp, ki, kd and pid_enabled — is left unchanged, motor power is
forced to 0, and the externally reported stage is reset to 0, the idle
value: no distinct TimedOut status value exists in the code. -/
theorem autotune_timeout_behavior (cfg : Config) (rpm : ℤ → ℚ) (t0 : ℤ) (A B : ℚ)
    (h0A : 0 ≤ A) (hA : A ≤ 9999) (hAB : A ≤ B)
    (hband : B - A ≤ cfg.autotune_target_rpm * (1/10))
    (htr : ∀ t, 10 < rpm t → A ≤ rpm t ∧ rpm t ≤ B) :
    (autotune_pid cfg rpm 901 t0).cfg.kp = cfg.kp ∧
    (autotune_pid cfg rpm 901 t0).cfg.ki = cfg.ki ∧
    (autotune_pid cfg rpm 901 t0).cfg.kd = cfg.kd ∧
    (autotune_pid cfg rpm 901 t0).cfg.pid_enabled = cfg.pid_enabled ∧
    (autotune_pid cfg rpm 901 t0).stage = autotune_stage_idle ∧
    (autotune_pid cfg rpm 901 t0).active = false ∧
    (autotune_pid cfg rpm 901 t0).power = 0 ∧
    (autotune_pid cfg rpm 901 t0).now = t0 + 2000 + 45000 := by
  obtain ⟨h1, h2, h3, h4, h5⟩ := autotune_no_osc cfg rpm t0 A B h0A hA hAB hband htr
  rw [h1]
  exact ⟨rfl, rfl, rfl, rfl, h2, h3, h4, h5⟩

/-- Witness for C3 at a concrete no-oscillation trace: RPM constantly 50
against the default target of 300 (band 50 to 50, threshold 30), at start
tick 0. -/
theorem autotune_timeout_behavior_witness :
    (autotune_pid defaultConfig (fun _ => 50) 901 0).cfg.kp = defaultConfig.kp ∧
    (autotune_pid defaultConfig (fun _ => 50) 901 0).cfg.pid_enabled =
      defaultConfig.pid_enabled ∧
    (autotune_pid defaultConfig (fun _ => 50) 901 0).stage = autotune_stage_idle ∧
    (autotune_pid defaultConfig (fun _ => 50) 901 0).power = 0 := by
  have h := autotune_timeout_behavior defaultConfig (fun _ => 50) 0 50 50 (by norm_num)
    (by norm_num) (by norm_num) (by norm_num [defaultConfig])
    (fun t _ => by norm_num)
  exact ⟨h.1, h.2.2.2.1, h.2.2.2.2.1, h.2.2.2.2.2.2.1⟩

/-- C7: when the autotune success branch fires (a qualifying sample after
the 10-second settle window with the observed peak-to-trough swing above a
tenth of the target, the swing being positive), the configuration receives
kp = 0.6 Ku, ki = kp / (Pu / 2) and kd = kp (Pu / 8), each rounded to three
decimals, with Ku = (high - low) / (maxObserved - minObserved) and Pu the
fixed constant 2.0 seconds; pid_enabled is set, the stage becomes the
complete value 2, power is forced to 0, and the cleared active flag makes
the loop exit (the state is a fixpoint for any remaining fuel). -/
theorem autotune_success_gains (target hi lo r : ℚ) (s : ATState)
    (h10 : 10 < r) (hsamp : 100 ≤ s.now - s.last_sample)
    (hsettle : 10000 < s.now - s.start)
    (hswing : target * (1/10) < max s.maxObs r - min s.minObs r)
    (hpos : 0 < max s.maxObs r - min s.minObs r) :
    (autotune_iter target hi lo r s).cfg.kp =
      round3 ((6/10) * ((hi - lo) / (max s.maxObs r - min s.minObs r))) ∧
    (autotune_iter target hi lo r s).cfg.ki =
      round3 (((6/10) * ((hi - lo) / (max s.maxObs r - min s.minObs r))) / ((2 : ℚ) / 2)) ∧
    (autotune_iter target hi lo r s).cfg.kd =
      round3 (((6/10) * ((hi - lo) / (max s.maxObs r - min s.minObs r))) * ((2 : ℚ) / 8)) ∧
    (autotune_iter target hi lo r s).cfg.pid_enabled = true ∧
    (autotune_iter target hi lo r s).stage = autotune_stage_complete ∧
    (autotune_iter target hi lo r s).active = false ∧
    (autotune_iter target hi lo r s).power = 0 ∧
    (∀ (rpm : ℤ → ℚ) (n : ℕ),
      autotune_loop target hi lo rpm n (autotune_iter target hi lo r s) =
        autotune_iter target hi lo r s) := by
  have hiter : autotune_iter target hi lo r s =
      { s with last_sample := s.now, power := 0,
               maxObs := max s.maxObs r, minObs := min s.minObs r,
               cfg := { s.cfg with
                 kp := round3 ((6/10) * ((hi - lo) / (max s.maxObs r - min s.minObs r))),
                 ki := round3 (((6/10) * ((hi - lo) / (max s.maxObs r - min s.minObs r))) / ((2:ℚ)/2)),
                 kd := round3 (((6/10) * ((hi - lo) / (max s.maxObs r - min s.minObs r))) * ((2:ℚ)/8)),
                 pid_enabled := true },
               stage := autotune_stage_complete, active := false } := by
    simp only [autotune_iter]
    rw [if_pos ⟨h10, hsamp⟩, if_pos hsettle, if_pos hswing, if_pos hpos,
        if_pos (by norm_num : (0:ℚ) < 2 / 2)]
  rw [hiter]
  refine ⟨rfl, rfl, rfl, rfl, rfl, rfl, rfl, ?_⟩
  intro rpm n
  rw [← hiter]
  exact autotune_loop_inactive target hi lo rpm n _ (by rw [hiter])

/-- Witness for C7 at a concrete success state: previous extrema 400 and
9999, sample 300 against target 300 with the default 70/30 power band,
giving Ku = 40/100, kp = 0.24, ki = 0.24 and kd = 0.06. -/
theorem autotune_success_gains_witness :
    (autotune_iter 300 70 30 300
      ⟨20000, 0, 0, 400, 9999, 1, true, 70, defaultConfig⟩).cfg.kp = 6/25 ∧
    (autotune_iter 300 70 30 300
      ⟨20000, 0, 0, 400, 9999, 1, true, 70, defaultConfig⟩).cfg.ki = 6/25 ∧
    (autotune_iter 300 70 30 300
      ⟨20000, 0, 0, 400, 9999, 1, true, 70, defaultConfig⟩).cfg.kd = 3/50 ∧
    (autotune_iter 300 70 30 300
      ⟨20000, 0, 0, 400, 9999, 1, true, 70, defaultConfig⟩).cfg.pid_enabled = true ∧
    (autotune_iter 300 70 30 300
      ⟨20000, 0, 0, 400, 9999, 1, true, 70, defaultConfig⟩).stage =
        autotune_stage_complete := by
  have h := autotune_success_gains 300 70 30 300
    ⟨20000, 0, 0, 400, 9999, 1, true, 70, defaultConfig⟩
    (by norm_num) (by norm_num) (by norm_num)
    (by norm_num) (by norm_num)
  refine ⟨?_, ?_, ?_, h.2.2.2.1, h.2.2.2.2.1⟩
  · rw [h.1]
    norm_num [round3, roundHalfEven]
  · rw [h.2.1]
    norm_num [round3, roundHalfEven]
  · rw [h.2.2.1]
    norm_num [round3, roundHalfEven]

/- ===================== C5: stop sequence terminates ===================== -/

theorem stop_loop_succ (sensor : ℤ → Bool) (n : ℕ) (s : StopState) :
    stop_loop sensor (n + 1) s =
      if sensor s.now = false ∧ s.now - s.deadline < 0 then
        stop_loop sensor n
          { s with last_rpm := (calculate_rpm s.rpmSt s.now).1,
                   rpmSt := (calculate_rpm s.rpmSt s.now).2, now := s.now + 50 }
      else s := rfl

/-- The stop-sequence polling loop: when the remaining time to the deadline
is 50 k milliseconds, k iterations reach a state from which any further
fuel changes nothing, the motor command and deadline are preserved, and the
clock never passes the deadline. -/
theorem stop_loop_run (sensor : ℤ → Bool) :
    ∀ (k : ℕ) (s : StopState), s.deadline - s.now = 50 * (k : ℤ) →
      (∀ n : ℕ, k ≤ n → stop_loop sensor n s = stop_loop sensor k s) ∧
      (stop_loop sensor k s).cmd = s.cmd ∧
      (stop_loop sensor k s).deadline = s.deadline ∧
      (stop_loop sensor k s).now ≤ s.deadline := by
  intro k
  induction k with
  | zero =>
      intro s h
      norm_num at h
      have hstop : ∀ n : ℕ, stop_loop sensor n s = s := by
        intro n
        cases n with
        | zero => rfl
        | succ m =>
            rw [stop_loop_succ, if_neg]
            intro hc
            omega
      refine ⟨fun n _ => by rw [hstop n, hstop 0], by rw [hstop 0],
              by rw [hstop 0], ?_⟩
      rw [hstop 0]
      omega
  | succ k ih =>
      intro s h
      push_cast at h
      by_cases hs : sensor s.now = false
      · have hcond : sensor s.now = false ∧ s.now - s.deadline < 0 := ⟨hs, by omega⟩
        set s' : StopState :=
          { s with last_rpm := (calculate_rpm s.rpmSt s.now).1,
                   rpmSt := (calculate_rpm s.rpmSt s.now).2, now := s.now + 50 } with hs'
        have hstep : ∀ n : ℕ, stop_loop sensor (n + 1) s = stop_loop sensor n s' := by
          intro n
          rw [stop_loop_succ, if_pos hcond]
        have h' : s'.deadline - s'.now = 50 * (k : ℤ) := by
          have hD : s'.deadline = s.deadline := rfl
          have hN : s'.now = s.now + 50 := rfl
          rw [hD, hN]
          omega
        obtain ⟨ih1, ih2, ih3, ih4⟩ := ih s' h'
        refine ⟨?_, ?_, ?_, ?_⟩
        · intro n hn
          obtain ⟨m, rfl⟩ : ∃ m, n = m + 1 := ⟨n - 1, by omega⟩
          rw [hstep m, hstep k, ih1 m (by omega)]
        · rw [hstep k]
          exact ih2
        · rw [hstep k]
          exact ih3
        · rw [hstep k]
          exact ih4
      · have hstop : ∀ n : ℕ, stop_loop sensor n s = s := by
          intro n
          cases n with
          | zero => rfl
          | succ m =>
              rw [stop_loop_succ, if_neg]
              intro hc
              exact hs hc.1
        refine ⟨fun n _ => by rw [hstop n, hstop (k+1)], by rw [hstop (k+1)],
                by rw [hstop (k+1)], ?_⟩
        rw [hstop (k+1)]
        omega

/-- C5: the stop sequence entered on pedal release polls the configured
target position sensor, exits within the fixed 5-second timeout whether or
not the sensor ever asserts (any fuel of at least 100 ticks of 50 ms gives
the same result, so the loop cannot run forever), and on exit the motor
command is set_motor_power 0 (power 0) and the reported outcome is success
exactly when the selected sensor asserted at the exit tick, timeout
otherwise. -/
theorem stop_sequence_terminates :
    ∀ (cfg : Config) (sd su : ℤ → Bool) (fuel : ℕ) (t0 : ℤ) (rst : RpmState),
      100 ≤ fuel →
      stop_sequence cfg sd su fuel t0 rst = stop_sequence cfg sd su 100 t0 rst ∧
      (stop_sequence cfg sd su fuel t0 rst).final.cmd = set_motor_power 0 ∧
      (stop_sequence cfg sd su fuel t0 rst).final.cmd.power = 0 ∧
      (stop_sequence cfg sd su fuel t0 rst).final.now ≤ t0 + 5000 ∧
      ((stop_sequence cfg sd su fuel t0 rst).success = true ↔
        (if cfg.stop_position_default_down = true then sd else su)
          ((stop_sequence cfg sd su fuel t0 rst).final.now) = true) := by
  intro cfg sd su fuel t0 rst hfuel
  set sensor := if cfg.stop_position_default_down = true then sd else su with hsen
  set s0 : StopState :=
    { now := t0, deadline := t0 + 5000, cmd := set_motor_power stop_power,
      rpmSt := rst, last_rpm := 0 } with hs0
  have hseq : ∀ f : ℕ, stop_sequence cfg sd su f t0 rst =
      { final := { stop_loop sensor f s0 with cmd := set_motor_power 0 },
        creep := (stop_loop sensor f s0).cmd,
        success := sensor (stop_loop sensor f s0).now } := fun f => rfl
  have h0 : s0.deadline - s0.now = 50 * ((100 : ℕ) : ℤ) := by
    rw [hs0]
    norm_num
  obtain ⟨h1, h2, h3, h4⟩ := stop_loop_run sensor 100 s0 h0
  have hfix : stop_loop sensor fuel s0 = stop_loop sensor 100 s0 := h1 fuel hfuel
  refine ⟨?_, ?_, ?_, ?_, ?_⟩
  · rw [hseq fuel, hseq 100, hfix]
  · rw [hseq fuel]
  · rw [hseq fuel]
    rfl
  · rw [hseq fuel]
    have hnow : ({ stop_loop sensor fuel s0 with
        cmd := set_motor_power 0 } : StopState).now = (stop_loop sensor fuel s0).now := rfl
    rw [hnow, hfix]
    have hd : s0.deadline = t0 + 5000 := rfl
    rw [← hd]
    exact h4
  · rw [hseq fuel]

/-- Witness for C5 with an always-asserting sensor at fuel 150: the result
coincides with the fuel-100 run, the final command is set_motor_power 0
with power 0, the exit tick is within the deadline, and success is
reported. -/
theorem stop_sequence_terminates_witness :
    stop_sequence defaultConfig (fun _ => true) (fun _ => true) 150 0 ⟨0, 0, 0⟩ =
      stop_sequence defaultConfig (fun _ => true) (fun _ => true) 100 0 ⟨0, 0, 0⟩ ∧
    (stop_sequence defaultConfig (fun _ => true) (fun _ => true) 150 0 ⟨0, 0, 0⟩).final.cmd.power
      = 0 ∧
    (stop_sequence defaultConfig (fun _ => true) (fun _ => true) 150 0 ⟨0, 0, 0⟩).final.now
      ≤ 0 + 5000 ∧
    (stop_sequence defaultConfig (fun _ => true) (fun _ => true) 150 0 ⟨0, 0, 0⟩).success
      = true := by
  have h := stop_sequence_terminates defaultConfig (fun _ => true) (fun _ => true) 150 0
    ⟨0, 0, 0⟩ (by norm_num)
  refine ⟨h.1, h.2.2.1, h.2.2.2.1, ?_⟩
  rw [h.2.2.2.2]
  simp

/- ===================== C1: maximum-RPM calibration ===================== -/

/-- The calibration sampling loop exits immediately: its condition compares
the elapsed time against 0 (not against the declared 5000 ms), and elapsed
time is never negative. -/
theorem calib_loop_noop (rpm : ℤ → ℤ) (fuel : ℕ) (s : CalState)
    (h : s.start ≤ s.now) : calib_loop rpm fuel s = s := by
  cases fuel with
  | zero => rfl
  | succ n =>
      unfold calib_loop
      rw [if_neg]
      intro hc
      omega

/-- C1: the claim says the calibration samples RPM for a full 5-second
window and writes the observed maximum into max_motor_rpm.  The code
(main.py line 47) loops while ticks_diff(ticks_ms(), start_time) < 0, which
is false from the first check, and never uses calibration_duration_ms =
5000: the sampling loop runs zero iterations and the value written is
always 0, regardless of the actual motor speed (here 1500 RPM throughout
the intended window). -/
theorem max_rpm_calibration_writes_zero :
    (∀ (cfg : Config) (rpm : ℤ → ℤ) (fuel : ℕ) (t0 : ℤ),
       calib_loop rpm fuel
         { now := t0, start := t0, maxObs := 0, active := true, power := 100, cfg := cfg } =
         { now := t0, start := t0, maxObs := 0, active := true, power := 100, cfg := cfg } ∧
       (run_max_rpm_calibration cfg rpm fuel t0).cfg.max_motor_rpm = 0 ∧
       (run_max_rpm_calibration cfg rpm fuel t0).power = 0) ∧
    (run_max_rpm_calibration defaultConfig (fun _ => 1500) 100 0).cfg.max_motor_rpm = 0 ∧
    ((0 : ℚ) ≠ 1500) := by
  have key : ∀ (cfg : Config) (rpm : ℤ → ℤ) (fuel : ℕ) (t0 : ℤ),
      calib_loop rpm fuel
        { now := t0, start := t0, maxObs := 0, active := true, power := 100, cfg := cfg } =
        { now := t0, start := t0, maxObs := 0, active := true, power := 100, cfg := cfg } :=
    fun cfg rpm fuel t0 => calib_loop_noop rpm fuel _ le_rfl
  have hrun : ∀ (cfg : Config) (rpm : ℤ → ℤ) (fuel : ℕ) (t0 : ℤ),
      run_max_rpm_calibration cfg rpm fuel t0 =
        { now := t0, start := t0, maxObs := 0, active := false, power := 0,
          cfg := { cfg with max_motor_rpm := 0 } } := by
    intro cfg rpm fuel t0
    simp only [run_max_rpm_calibration, key cfg rpm fuel t0]
    norm_num
  refine ⟨fun cfg rpm fuel t0 => ⟨key cfg rpm fuel t0, ?_, ?_⟩, ?_, by norm_num⟩
  · rw [hrun cfg rpm fuel t0]
  · rw [hrun cfg rpm fuel t0]
  · rw [hrun defaultConfig (fun _ => 1500) 100 0]
